import Mathlib

set_option maxRecDepth 8000

/- Verification of the KPU Data Extractor installer (Setup.py).

The installer is a linear six-stage scaffolding script.  We embed it over an
explicit filesystem model: paths are component lists relative to the base
directory, the filesystem is an association list from paths to nodes, and each
stage is a state transformer that can raise a Python-level exception.  Console
output is recorded as a list of printed lines. -/

/-- A filesystem node: a directory, or a file with its text content. -/
inductive Node where
  | dir : Node
  | file : String → Node
deriving DecidableEq

instance : Inhabited Node := ⟨Node.dir⟩

/-- A path relative to the installer's base directory, as a list of components
(the result of splitting the Python relative path on the slash). -/
abbrev FPath := List String

/-- The filesystem under the base directory: an association list from paths to
nodes; the first binding for a key wins. -/
abbrev FS := List (FPath × Node)

/-- Look up the node at a path. -/
def fsLookup (fs : FS) (p : FPath) : Option Node :=
  match fs with
  | [] => none
  | (q, n) :: rest => if q = p then some n else fsLookup rest p

/-- Keep only the bindings whose key satisfies P. -/
def fsKeepKeys (fs : FS) (P : FPath → Bool) : FS :=
  fs.filter (fun e => P e.1)

/-- Drop every binding at key q. -/
def fsErase (fs : FS) (q : FPath) : FS :=
  fsKeepKeys fs (fun r => decide (r ≠ q))

/-- Bind key q to node n, replacing any previous binding. -/
def fsSet (fs : FS) (q : FPath) (n : Node) : FS :=
  (q, n) :: fsErase fs q

/-- Python-level failures relevant to the installer. -/
inductive PyErr where
  | systemExit : Nat → PyErr
  | keyboardInterrupt : PyErr
  | fileExistsError : PyErr
  | fileNotFoundError : PyErr
  | isADirectoryError : PyErr
  | notADirectoryError : PyErr
  | nameError : String → PyErr
  | osError : PyErr
deriving DecidableEq

/-- Interpreter state threaded through the stages: the filesystem rooted at the
base directory, plus the console lines printed so far (in order). -/
structure St where
  fs : FS
  out : List String
deriving DecidableEq

/-- Print one line. -/
def pr (st : St) (s : String) : St :=
  { st with out := st.out ++ [s] }

/-- Result of running a stage: normal return, or an uncaught exception carrying
the state at the point of the raise. -/
inductive Res where
  | ok : St → Res
  | err : PyErr → St → Res
deriving DecidableEq

/-- Sequencing that lets an exception propagate (Python control flow). -/
def Res.bind (r : Res) (f : St → Res) : Res :=
  match r with
  | Res.ok st => f st
  | Res.err e st => Res.err e st

/-- The state carried by a result (for an error, the state when it was raised). -/
def Res.state : Res → St
  | Res.ok st => st
  | Res.err _ st => st

/-- Split a character list on a separator character (used for paths and lines). -/
def splitOnChar (sep : Char) : List Char → List (List Char)
  | [] => [[]]
  | c :: rest =>
    let r := splitOnChar sep rest
    if c = sep then [] :: r
    else (c :: r.headD []) :: r.tail

/-- Convert a Python relative path string into its component list. -/
def pathOf (s : String) : FPath :=
  (splitOnChar (Char.ofNat 47) s.data).map (fun cs => String.mk cs)

/-- The parent directory of p exists (the empty parent is the base directory,
which always exists: the installer lives in it). -/
def parentOk (fs : FS) (p : FPath) : Bool :=
  decide (p.dropLast = []) || decide (fsLookup fs p.dropLast = some Node.dir)

/-- One Path.mkdir(exist_ok=True) level: create the directory if absent, keep
an existing directory, fail on an existing file. -/
def mkdirOne (fs : FS) (q : FPath) : Except PyErr FS :=
  match fsLookup fs q with
  | none => Except.ok (fsSet fs q Node.dir)
  | some Node.dir => Except.ok fs
  | some (Node.file _) => Except.error PyErr.fileExistsError

/-- The nonempty prefixes of a path, shortest first. -/
def pathPrefixes (p : FPath) : List FPath :=
  (List.range p.length).map (fun i => p.take (i + 1))

/-- Create each directory of a list in order, stopping at the first failure. -/
def mkdirSeq (fs : FS) : List FPath → Except PyErr FS
  | [] => Except.ok fs
  | q :: rest =>
    match mkdirOne fs q with
    | Except.error e => Except.error e
    | Except.ok fs1 => mkdirSeq fs1 rest

/-- Path.mkdir(parents=True, exist_ok=True): create every missing prefix. -/
def mkdirParents (fs : FS) (p : FPath) : Except PyErr FS :=
  mkdirSeq fs (pathPrefixes p)

/-- Path.write_text: replace the node at p with a file holding s; fails on an
existing directory at p or a missing parent directory. -/
def writeText (fs : FS) (p : FPath) (s : String) : Except PyErr FS :=
  match fsLookup fs p with
  | some Node.dir => Except.error PyErr.isADirectoryError
  | _ =>
    if parentOk fs p then Except.ok (fsSet fs p (Node.file s))
    else Except.error PyErr.fileNotFoundError

/-- Project identity, from ProjectSetup.__init__ (Setup.py lines 17-21). -/
def project_name : String := "KPUDataExtractor"

/-- The orchestrator's configured version string (Setup.py line 19). -/
def version : String := "5.0.0"

/-- The configured author (Setup.py line 20). -/
def author : String := "System Admin"

/-- The fixed dependency manifest list (Setup.py lines 22-31). -/
def requirements : List String :=
  ["requests>=2.31.0", "colorama>=0.4.6", "tqdm>=4.66.1", "pandas>=2.0.3",
   "openpyxl>=3.1.2", "python-dotenv>=1.0.0", "PyInquirer>=1.0.3", "tabulate>=0.9.0"]

/-- Python "\n".join. -/
def joinNl : List String → String
  | [] => ""
  | [s] => s
  | s :: rest => s ++ "\n" ++ joinNl rest

/-- The requirements.txt payload: "\n".join(self.requirements) (line 255). -/
def req_content : String := joinNl requirements

/-- The Directory Plan (Setup.py lines 55-73), in source order. -/
def directories : List String :=
  ["src", "src/core", "src/api", "src/database", "src/utils", "src/export",
   "src/reports", "data", "data/raw", "data/processed", "data/exports", "logs",
   "config", "docs", "tests", "bin", "tmp"]

/-- The File Plan (Setup.py lines 75-92), in source order. -/
def files : List String :=
  ["src/__init__.py", "src/core/__init__.py", "src/api/__init__.py",
   "src/database/__init__.py", "src/utils/__init__.py", "src/export/__init__.py",
   "src/reports/__init__.py", "config/settings.json", "config/api_config.json",
   ".env.example", "requirements.txt", "README.md", "CHANGELOG.md", "LICENSE",
   "run.py", "cleanup.py"]

/-- The horizontal border of the banner frame: 62 box-drawing double-bar
characters (U+2550), as in the source banner lines. -/
def bannerBar : String := String.mk (List.replicate 62 (Char.ofNat 9552))

/-- The separator row used inside the generated launcher's docstring: 63
equals signs, as in the source template. -/
def eqBar : String := String.mk (List.replicate 63 (Char.ofNat 61))

/-- The installation banner, with the version interpolated (lines 35-40). -/
def banner_text : String :=
  "\n╔" ++ bannerBar ++ "╗\n║                    KPU DATA EXTRACTOR v5.0.0                    ║\n║                Complete Installation Setup                   ║\n╚" ++ bannerBar ++ "╝\n"

/-- The ignore-rules file payload (Setup.py lines 108-154). -/
def gitignore_content : String :=
  "# Python\n__pycache__/\n*.py[cod]\n*$py.class\n*.so\n.Python\nbuild/\ndevelop-eggs/\ndist/\ndownloads/\neggs/\n.eggs/\nlib/\nlib64/\nparts/\nsdist/\nvar/\nwheels/\n*.egg-info/\n.installed.cfg\n*.egg\n\n# Project\ndata/exports/*\n!data/exports/.gitkeep\nlogs/*\n!logs/.gitkeep\ntmp/*\n!tmp/.gitkeep\n\n# Environment\n.env\n.env.local\n.env.development.local\n.env.test.local\n.env.production.local\n\n# IDE\n.vscode/\n.idea/\n*.swp\n*.swo\n\n# OS\n.DS_Store\nThumbs.db\n"

/-- The .env.example payload (Setup.py lines 221-242; APP_VERSION is a literal
in the source, not an interpolation). -/
def env_example : String :=
  "# Database Configuration\nDB_PATH=data/kpu_database.db\nDB_BACKUP_ENABLED=true\n\n# API Configuration\nAPI_TIMEOUT=30\nAPI_RETRY_COUNT=3\nAPI_RATE_LIMIT=10\n\n# Export Configuration\nEXPORT_FORMAT=csv\nEXPORT_ENCODING=utf-8\n\n# Logging Configuration\nLOG_LEVEL=INFO\nLOG_MAX_SIZE=10485760\nLOG_BACKUP_COUNT=5\n\n# Application Configuration\nAPP_NAME=KPU Data Extractor\nAPP_VERSION=5.0.0\n"

/-- The generated launcher script text (Setup.py lines 272-302): the plain
header plus the f-string body with the version interpolated and the doubled
braces around e reduced to single braces. -/
def run_py_text : String :=
  "#!/usr/bin/env python3\n# -*- coding: utf-8 -*-\n\n\"\"\"\n" ++ eqBar ++ "\n    KPU DATA EXTRACTOR - MAIN ENTRY POINT\n    Version: 5.0.0\n" ++ eqBar ++ "\n\"\"\"\n\nimport sys\nimport os\nfrom pathlib import Path\n\n# Add src to Python path\nproject_root = Path(__file__).parent\nsys.path.insert(0, str(project_root / \x27src\x27))\n\nfrom src.app.main import main\n\nif __name__ == \"__main__\":\n    try:\n        main()\n    except KeyboardInterrupt:\n        print(\"\\n⚠️  Application interrupted by user.\")\n        sys.exit(0)\n    except Exception as e:\n        print(f\"\\n❌ Fatal error: \x7be\x7d\")\n        sys.exit(1)\n"

/-- Modelled from the spec: the source file is truncated inside the README
f-string of create_documentation (after line 389), so only this visible prefix
of the README payload is known; per §6 the truncated remainder is the
project-structure outline.  No claim depends on the README's exact text. -/
def readme_text : String :=
  "# KPU Data Extractor v5.0.0\n\nComplete data extraction tool for KPU/KOMINFO public APIs.\n\n## 🚀 Features\n\n- ✅ Data DPT lookup by NIK\n- ✅ TPS results checking\n- ✅ Wilayah data extraction\n- ✅ Batch NIK processing\n- ✅ Multiple export formats (CSV, Excel, JSON)\n- ✅ Database storage with SQLite\n- ✅ Comprehensive logging\n- ✅ Clean and structured code\n\n## 📁 Project Structure"

mutual

/-- JSON values (the fragment the installer serializes). -/
inductive Json where
  | str : String → Json
  | num : Nat → Json
  | bool : Bool → Json
  | obj : JObj → Json

/-- JSON object fields, in insertion order (Python dicts preserve it). -/
inductive JObj where
  | nil : JObj
  | cons : String → Json → JObj → JObj

end

/-- Build an object field list. -/
def jo : List (String × Json) → JObj
  | [] => JObj.nil
  | (k, v) :: rest => JObj.cons k v (jo rest)

/-- n space characters. -/
def nSpaces (n : Nat) : String :=
  String.mk (List.replicate n (Char.ofNat 32))

mutual

/-- Modelled from the spec: the visible script calls json.dumps(..., indent=2)
without importing json; the spec's §9 design note says JSON encoding is to be
treated as the normal, always-available capability, so we model Python's
json.dumps rendering (indent=2, insertion-ordered keys) directly.  The strings
serialized by this installer contain no characters that json.dumps escapes. -/
def Json.dump : Json → Nat → String
  | Json.str s, _ => "\"" ++ s ++ "\""
  | Json.num n, _ => toString n
  | Json.bool b, _ => cond b ("true") ("false")
  | Json.obj JObj.nil, _ => "\x7b\x7d"
  | Json.obj o, ind => "\x7b\n" ++ JObj.dump o (ind + 2) ++ "\n" ++ nSpaces ind ++ "\x7d"

/-- Render the fields of an object at the given indentation. -/
def JObj.dump : JObj → Nat → String
  | JObj.nil, _ => ""
  | JObj.cons k v JObj.nil, ind => nSpaces ind ++ "\"" ++ k ++ "\": " ++ Json.dump v ind
  | JObj.cons k v rest, ind =>
      nSpaces ind ++ "\"" ++ k ++ "\": " ++ Json.dump v ind ++ ",\n" ++ JObj.dump rest ind

end

/-- Field lookup in an object. -/
def JObj.get : JObj → String → Option Json
  | JObj.nil, _ => none
  | JObj.cons k v rest, key => if k = key then some v else JObj.get rest key

/-- Field lookup in a JSON value (none on non-objects). -/
def Json.get : Json → String → Option Json
  | Json.obj o, key => JObj.get o key
  | _, _ => none

/-- The Settings Document built by create_config_files (Setup.py lines 167-195),
with the version and author fields taken from the project identity. -/
def settingsJson : Json :=
  Json.obj (jo
    [("app", Json.obj (jo
        [("name", Json.str ("KPU Data Extractor")),
         ("version", Json.str version),
         ("author", Json.str author),
         ("description", Json.str ("Complete KPU/KOMINFO Data Extraction Tool"))])),
     ("database", Json.obj (jo
        [("path", Json.str ("data/kpu_database.db")),
         ("backup_interval", Json.num 3600),
         ("max_connections", Json.num 10)])),
     ("api", Json.obj (jo
        [("timeout", Json.num 30),
         ("retry_attempts", Json.num 3),
         ("rate_limit", Json.num 10),
         ("user_agent", Json.str ("KPU-Data-Extractor/5.0"))])),
     ("export", Json.obj (jo
        [("default_format", Json.str ("csv")),
         ("encoding", Json.str ("utf-8")),
         ("include_timestamp", Json.bool true)])),
     ("logging", Json.obj (jo
        [("level", Json.str ("INFO")),
         ("max_size_mb", Json.num 10),
         ("backup_count", Json.num 5)]))])

/-- The Settings Document structure exactly as the spec's §6 lists it, with
app.version instantiated at the configured version string "5.0.0".  This
definition is transcribed from the spec's words, to be compared with
settingsJson, which is transcribed from the source. -/
def settingsSpecJson : Json :=
  Json.obj (jo
    [("app", Json.obj (jo
        [("name", Json.str ("KPU Data Extractor")),
         ("version", Json.str ("5.0.0")),
         ("author", Json.str ("System Admin")),
         ("description", Json.str ("Complete KPU/KOMINFO Data Extraction Tool"))])),
     ("database", Json.obj (jo
        [("path", Json.str ("data/kpu_database.db")),
         ("backup_interval", Json.num 3600),
         ("max_connections", Json.num 10)])),
     ("api", Json.obj (jo
        [("timeout", Json.num 30),
         ("retry_attempts", Json.num 3),
         ("rate_limit", Json.num 10),
         ("user_agent", Json.str ("KPU-Data-Extractor/5.0"))])),
     ("export", Json.obj (jo
        [("default_format", Json.str ("csv")),
         ("encoding", Json.str ("utf-8")),
         ("include_timestamp", Json.bool true)])),
     ("logging", Json.obj (jo
        [("level", Json.str ("INFO")),
         ("max_size_mb", Json.num 10),
         ("backup_count", Json.num 5)]))])

/-- The API Config Document (Setup.py lines 202-214). -/
def apiConfigJson : Json :=
  Json.obj (jo
    [("endpoints", Json.obj (jo
        [("dpt_check", Json.str ("https://cekdptonline.kpu.go.id")),
         ("pemilu_data", Json.str ("https://sirekap-obj.kpu.go.id")),
         ("wilayah", Json.str ("https://wilayah-kpu.go.id")),
         ("pilkada", Json.str ("https://pilkada2024.kpu.go.id"))])),
     ("headers", Json.obj (jo
        [("Accept", Json.str ("application/json, text/plain, */*")),
         ("Accept-Language", Json.str ("id-ID,id;q=0.9,en-US;q=0.8,en;q=0.7")),
         ("User-Agent", Json.str ("Mozilla/5.0 (Windows NT 10.0; Win64; x64) AppleWebKit/537.36"))]))])

/-- The six stage-progress header lines, in stage order. -/
def stage_headers : List String :=
  ["[1/6] Checking Python version...",
   "\n[2/6] Creating project structure...",
   "\n[3/6] Creating configuration files...",
   "\n[4/6] Installing dependencies...",
   "\n[5/6] Creating main application files...",
   "\n[6/6] Creating documentation..."]

/-- Recognize a stage-progress header line. -/
def isStageHeader (s : String) : Bool := decide (s ∈ stage_headers)

/-- Stage 0, print_banner (Setup.py lines 33-41): pure console output. -/
def print_banner (st : St) : St := pr st banner_text

/-- sys.version_info < (3, 7), on the (major, minor) pair: the tuple comparison
restricted to the first two components (a longer tuple starting (3, 7, ...) is
never below (3, 7)). -/
def pyVerLt37 (v : Nat × Nat) : Bool :=
  decide (v.1 < 3 ∨ (v.1 = 3 ∧ v.2 < 7))

/-- Stage 1, check_python_version (Setup.py lines 43-49): below (3, 7) prints an
error and exits the process with status 1; otherwise prints a confirmation. -/
def check_python_version (v : Nat × Nat) (st : St) : Res :=
  if pyVerLt37 v then
    Res.err (PyErr.systemExit 1)
      (pr (pr st ("[1/6] Checking Python version...")) ("❌ Python 3.7 or higher is required!"))
  else
    Res.ok (pr (pr st ("[1/6] Checking Python version..."))
      ("✅ Python " ++ toString v.1 ++ "." ++ toString v.2 ++ " detected"))

/-- Run one step per list element, stopping at the first uncaught exception. -/
def foldStage {α : Type} (step : St → α → Res) : St → List α → Res
  | st, [] => Res.ok st
  | st, x :: rest =>
    match step st x with
    | Res.ok st1 => foldStage step st1 rest
    | Res.err e st1 => Res.err e st1

/-- One Directory-Plan entry (Setup.py lines 95-98): mkdir(parents=True,
exist_ok=True) followed by a progress line (printed even if it existed). -/
def mkdirStep (st : St) (d : String) : Res :=
  match mkdirParents st.fs (pathOf d) with
  | Except.error e => Res.err e st
  | Except.ok fs1 => Res.ok (pr { st with fs := fs1 } ("  📁 Created: " ++ d))

/-- One File-Plan entry (Setup.py lines 101-105): touch only when no node
exists at the path, printing a progress line only on creation. -/
def touchStep (st : St) (f : String) : Res :=
  match fsLookup st.fs (pathOf f) with
  | some _ => Res.ok st
  | none =>
    if parentOk st.fs (pathOf f) then
      Res.ok (pr { st with fs := fsSet st.fs (pathOf f) (Node.file "") }
        ("  📄 Created: " ++ f))
    else Res.err PyErr.fileNotFoundError st

/-- write_text followed by a progress line. -/
def writeStep (p : FPath) (content msg : String) (st : St) : Res :=
  match writeText st.fs p content with
  | Except.error e => Res.err e st
  | Except.ok fs1 => Res.ok (pr { st with fs := fs1 } msg)

/-- write_text with no progress line (requirements.txt, line 257). -/
def writeQuiet (p : FPath) (content : String) (st : St) : Res :=
  match writeText st.fs p content with
  | Except.error e => Res.err e st
  | Except.ok fs1 => Res.ok { st with fs := fs1 }

/-- Stage 2, create_project_structure (Setup.py lines 51-160): directories,
then create-if-missing placeholder files, then the ignore-rules file
(unconditionally overwritten). -/
def create_project_structure (st : St) : Res :=
  Res.bind (foldStage mkdirStep (pr st ("\n[2/6] Creating project structure...")) directories)
    (fun st1 =>
  Res.bind (foldStage touchStep st1 files) (fun st2 =>
  Res.bind (writeStep (pathOf (".gitignore")) gitignore_content
      ("  📄 Created: .gitignore") st2) (fun st3 =>
  Res.ok (pr st3 ("✅ Project structure created successfully!")))))

/-- Stage 3, create_config_files (Setup.py lines 162-248): writes the two JSON
documents (indent=2) and the environment template, each unconditionally. -/
def create_config_files (st : St) : Res :=
  Res.bind (writeStep (pathOf ("config/settings.json")) (Json.dump settingsJson 0)
      ("  📄 Created: config/settings.json")
      (pr st ("\n[3/6] Creating configuration files..."))) (fun st1 =>
  Res.bind (writeStep (pathOf ("config/api_config.json")) (Json.dump apiConfigJson 0)
      ("  📄 Created: config/api_config.json") st1) (fun st2 =>
  Res.bind (writeStep (pathOf (".env.example")) env_example
      ("  📄 Created: .env.example") st2) (fun st3 =>
  Res.ok (pr st3 ("✅ Configuration files created!")))))

/-- Outcome of the pip subprocess call, an input of the run: a zero exit, a
non-zero exit (raising CalledProcessError from check_call), or a failure to
invoke the subprocess at all (raising OSError, which the source does NOT
catch: its except clause names only subprocess.CalledProcessError). -/
inductive InstallOutcome where
  | success : InstallOutcome
  | calledProcessError : Nat → InstallOutcome
  | invocationFailure : InstallOutcome

/-- Stage 4, install_dependencies (Setup.py lines 250-265): writes
requirements.txt, then runs pip; a CalledProcessError is caught and reported
(the printed detail renders str(e)); an OSError propagates. -/
def install_dependencies (outcome : InstallOutcome) (st : St) : Res :=
  Res.bind (writeQuiet (pathOf ("requirements.txt")) req_content
      (pr st ("\n[4/6] Installing dependencies..."))) (fun st1 =>
  match outcome with
  | InstallOutcome.success => Res.ok (pr st1 ("✅ Dependencies installed successfully!"))
  | InstallOutcome.calledProcessError c =>
      Res.ok (pr (pr st1 ("❌ Failed to install dependencies: Command returned non-zero exit status "
          ++ toString c ++ "."))
        ("Please install manually: pip install -r requirements.txt"))
  | InstallOutcome.invocationFailure => Res.err PyErr.osError st1)

/-- Stage 5, create_main_files (Setup.py lines 267-368): writes the launcher
run.py, then builds the cleanup script text.  The cleanup text is an f-string
(line 312: cleanup_py += f-triple-quote) whose interpolation fields
dir_path.name (lines 347, 350) and file_path.name (line 356) name variables
that are bound neither in create_main_files (whose locals are run_py, run_path,
cleanup_py) nor at module level, so evaluating the f-string raises
NameError: name 'dir_path' is not defined — after run.py is written and before
cleanup.py is written. -/
def create_main_files (st : St) : Res :=
  Res.bind (writeStep (pathOf ("run.py")) run_py_text ("  📄 Created: run.py")
      (pr st ("\n[5/6] Creating main application files..."))) (fun st1 =>
  Res.err (PyErr.nameError ("dir_path")) st1)

/-- Stage 6, create_documentation (Setup.py lines 370+): prints its header and
writes README.md unconditionally.  Modelled from the spec for the truncated
tail of the method (§4.1: templated README written to its fixed path). -/
def create_documentation (st : St) : Res :=
  Res.bind (writeStep (pathOf ("README.md")) readme_text ("  📄 Created: README.md")
      (pr st ("\n[6/6] Creating documentation..."))) (fun st1 =>
  Res.ok st1)

/-- Modelled from the spec: the script's top-level entry point lies in the
truncated tail of the source file; §2/§4.1 specify that a single run invokes
the banner and the six stages in this fixed order exactly once, each stage
starting only after the previous returned. -/
def setup_run (v : Nat × Nat) (outcome : InstallOutcome) (st : St) : Res :=
  Res.bind (check_python_version v (print_banner st)) (fun st1 =>
  Res.bind (create_project_structure st1) (fun st2 =>
  Res.bind (create_config_files st2) (fun st3 =>
  Res.bind (install_dependencies outcome st3) (fun st4 =>
  Res.bind (create_main_files st4) (fun st5 =>
  create_documentation st5)))))

/-- Final outcome of a whole run: the process exit status and the final state. -/
structure RunResult where
  exitCode : Nat
  st : St
deriving DecidableEq

/-- Modelled from the spec: the top-level handler (§7) — sys.exit passes its
status through, a user interrupt maps to a warning and exit 0, and any other
uncaught failure maps to an error message and exit 1. -/
def topLevel : Res → RunResult
  | Res.ok st => { exitCode := 0, st := st }
  | Res.err (PyErr.systemExit c) st => { exitCode := c, st := st }
  | Res.err PyErr.keyboardInterrupt st =>
      { exitCode := 0, st := pr st ("⚠️ Setup interrupted by user") }
  | Res.err _ st => { exitCode := 1, st := pr st ("❌ Setup failed") }

/-- One whole run of the installer on a host version, a pip outcome and an
initial filesystem. -/
def runSetup (v : Nat × Nat) (outcome : InstallOutcome) (fs : FS) : RunResult :=
  topLevel (setup_run v outcome { fs := fs, out := [] })

/-- The character list ".log". -/
def dotLog : List Char :=
  [Char.ofNat 46, Char.ofNat 108, Char.ofNat 111, Char.ofNat 103]

/-- fnmatch against the pattern *.log: the name ends with ".log". -/
def endsWithLog (s : String) : Bool :=
  List.isSuffixOf dotLog s.data

/-- A path that dir_path.glob('*.log') yields inside logs: a direct child of
logs whose name matches *.log. -/
def isLogChild (p : FPath) : Bool :=
  match p with
  | [a, b] => decide (a = "logs") && endsWithLog b
  | _ => false

/-- file.unlink() over a list of glob results, in order: removing a file drops
its binding; hitting a directory raises. -/
def unlinkSeq (fs : FS) : List (FPath × Node) → Except PyErr FS
  | [] => Except.ok fs
  | (_, Node.dir) :: _ => Except.error PyErr.isADirectoryError
  | (p, Node.file _) :: rest => unlinkSeq (fsErase fs p) rest

/-- shutil.rmtree for one cleanup directory (cleanup.py template, lines
341-350 of Setup.py): nothing if absent, remove the whole subtree if a
directory, raise if a file. -/
def rmtreeStep (d : String) (st : St) : Res :=
  match fsLookup st.fs [d] with
  | none => Res.ok st
  | some (Node.file _) => Res.err PyErr.notADirectoryError st
  | some Node.dir =>
      Res.ok (pr { st with fs := fsKeepKeys st.fs (fun q => !(List.isPrefixOf [d] q)) }
        ("  ✅ Removed: " ++ d ++ "/"))

/-- The logs branch of the cleanup loop (lines 343-347 of Setup.py): delete the
direct children of logs matching *.log, keep the directory itself. -/
def logsStep (st : St) : Res :=
  match fsLookup st.fs ["logs"] with
  | none => Res.ok st
  | some (Node.file _) => Res.ok (pr st ("  ✅ Cleared: logs/"))
  | some Node.dir =>
      match unlinkSeq st.fs (fsKeepKeys st.fs isLogChild) with
      | Except.error e => Res.err e st
      | Except.ok fs1 => Res.ok (pr { st with fs := fs1 } ("  ✅ Cleared: logs/"))

/-- One OS-metadata file removal (lines 353-356 of Setup.py). -/
def unlinkFileStep (f : String) (st : St) : Res :=
  match fsLookup st.fs [f] with
  | none => Res.ok st
  | some Node.dir => Res.err PyErr.isADirectoryError st
  | some (Node.file _) =>
      Res.ok (pr { st with fs := fsErase st.fs [f] } ("  ✅ Removed: " ++ f))

/-- The behavior of the generated cleanup script, translated from the cleanup.py
template text in create_main_files (Setup.py lines 308-362): clean
__pycache__, tmp and logs in that order, then the two OS-metadata files. -/
def cleanup_run (st : St) : Res :=
  Res.bind (rmtreeStep ("__pycache__") (pr st ("🧹 Cleaning project..."))) (fun st1 =>
  Res.bind (rmtreeStep ("tmp") st1) (fun st2 =>
  Res.bind (logsStep st2) (fun st3 =>
  Res.bind (unlinkFileStep (".DS_Store") st3) (fun st4 =>
  Res.bind (unlinkFileStep ("thumbs.db") st4) (fun st5 =>
  Res.ok (pr st5 ("✅ Cleanup completed!")))))))

/-- The lines of a string (split on the newline character). -/
def linesOf (s : String) : List String :=
  (splitOnChar (Char.ofNat 10) s.data).map (fun cs => String.mk cs)

/-- Substring occurrence on character lists. -/
def hasSub : List Char → List Char → Bool
  | hay, needle =>
    if List.isPrefixOf needle hay then true
    else
      match hay with
      | [] => false
      | _ :: t => hasSub t needle

/-- s contains sub as a substring. -/
def strContains (s sub : String) : Bool := hasSub s.data sub.data

/-- A filesystem pre-seeded with stale content at every templated path, used to
exhibit which templated files a run does and does not overwrite. -/
def seededFS : FS :=
  [([".gitignore"], Node.file ("OLD")),
   (["config"], Node.dir),
   (["config", "settings.json"], Node.file ("OLD")),
   (["config", "api_config.json"], Node.file ("OLD")),
   ([".env.example"], Node.file ("OLD")),
   (["run.py"], Node.file ("OLD")),
   (["cleanup.py"], Node.file ("OLD")),
   (["README.md"], Node.file ("OLD"))]

/-- A tree holding the cache directory, tmp, a logs directory with one *.log
file and one other file, and one OS-metadata file, for exercising the
generated cleanup script. -/
def cleanupDemoFS : FS :=
  [(["__pycache__"], Node.dir),
   (["__pycache__", "m.pyc"], Node.file ("x")),
   (["tmp"], Node.dir),
   (["tmp", "scratch.txt"], Node.file ("y")),
   (["logs"], Node.dir),
   (["logs", "old.log"], Node.file ("L")),
   (["logs", "keep.txt"], Node.file ("K")),
   ([".DS_Store"], Node.file ("z"))]

/- ------------------------------------------------------------------ -/
/- Lemmas about the filesystem model.                                 -/
/- ------------------------------------------------------------------ -/

theorem fsLookup_keepKeys (fs : FS) (P : FPath → Bool) (p : FPath) :
    fsLookup (fsKeepKeys fs P) p = if P p then fsLookup fs p else none := by
  induction fs with
  | nil => cases hP : P p <;> simp [fsKeepKeys, fsLookup, hP]
  | cons e rest ih =>
    obtain ⟨q, n⟩ := e
    simp only [fsKeepKeys, List.filter_cons] at ih ⊢
    cases hq : P q with
    | true =>
      simp only [if_true]
      by_cases hqp : q = p
      · subst hqp; simp [fsLookup, hq]
      · simp [fsLookup, hqp, ih]
    | false =>
      simp only [Bool.false_eq_true, if_false]
      by_cases hqp : q = p
      · subst hqp; rw [ih, hq]; simp [fsLookup, hq]
      · simp [fsLookup, hqp, ih]

theorem fsLookup_erase (fs : FS) (q p : FPath) :
    fsLookup (fsErase fs q) p = if p = q then none else fsLookup fs p := by
  unfold fsErase
  rw [fsLookup_keepKeys]
  by_cases hpq : p = q <;> simp [hpq]

theorem fsLookup_set (fs : FS) (q : FPath) (n : Node) (p : FPath) :
    fsLookup (fsSet fs q n) p = if q = p then some n else fsLookup fs p := by
  unfold fsSet
  by_cases hqp : q = p
  · subst hqp; simp [fsLookup]
  · simp only [fsLookup, hqp, if_false, fsLookup_erase]
    have : ¬ p = q := fun hc => hqp hc.symm
    simp [this]

theorem mem_keys_of_lookup {fs : FS} {p : FPath} {n : Node} (h : fsLookup fs p = some n) :
    p ∈ fs.map (fun e => e.1) := by
  induction fs with
  | nil => simp [fsLookup] at h
  | cons e rest ih =>
    obtain ⟨q, m⟩ := e
    simp only [fsLookup] at h
    by_cases hq : q = p
    · subst hq
      exact List.mem_map.mpr ⟨(q, m), List.mem_cons_self _ _, rfl⟩
    · rw [if_neg hq] at h
      simp [ih h]

theorem lookup_of_not_mem_keys {fs : FS} {p : FPath}
    (h : p ∉ fs.map (fun e => e.1)) : fsLookup fs p = none := by
  cases h0 : fsLookup fs p with
  | none => rfl
  | some n => exact absurd (mem_keys_of_lookup h0) h

theorem mem_keys_keepKeys {fs : FS} {P : FPath → Bool} {p : FPath} :
    p ∈ (fsKeepKeys fs P).map (fun e => e.1) ↔ P p = true ∧ p ∈ fs.map (fun e => e.1) := by
  simp only [fsKeepKeys, List.mem_map, List.mem_filter]
  constructor
  · rintro ⟨e, ⟨hmem, hP⟩, hkey⟩
    subst hkey
    exact ⟨hP, e, hmem, rfl⟩
  · rintro ⟨hP, e, hmem, hkey⟩
    subst hkey
    exact ⟨e, ⟨hmem, hP⟩, rfl⟩

theorem mem_of_mem_keepKeys {fs : FS} {P : FPath → Bool} {e : FPath × Node}
    (h : e ∈ fsKeepKeys fs P) : e ∈ fs :=
  (List.mem_filter.mp h).1

theorem lookup_eq_some_of_mem_nodup {fs : FS} {p : FPath} {n : Node}
    (hnd : (fs.map (fun e => e.1)).Nodup) (h : (p, n) ∈ fs) : fsLookup fs p = some n := by
  induction fs with
  | nil => simp at h
  | cons e rest ih =>
    obtain ⟨q, m⟩ := e
    simp only [List.map_cons, List.nodup_cons] at hnd
    rcases List.mem_cons.mp h with he | hrest
    · injection he with h1 h2
      subst h1; subst h2
      simp [fsLookup]
    · have hqp : q ≠ p := by
        intro hc
        subst hc
        exact hnd.1 (List.mem_map.mpr ⟨(q, n), hrest, rfl⟩)
      simp only [fsLookup, if_neg hqp]
      exact ih hnd.2 hrest

/- ------------------------------------------------------------------ -/
/- Lemmas about the primitive filesystem operations.                  -/
/- ------------------------------------------------------------------ -/

theorem mkdirOne_ok_self {fs fs' : FS} {q : FPath} (h : mkdirOne fs q = Except.ok fs') :
    fsLookup fs' q = some Node.dir := by
  unfold mkdirOne at h
  cases h0 : fsLookup fs q with
  | none =>
    rw [h0] at h
    injection h with h
    subst h
    simp [fsLookup_set]
  | some m =>
    cases m with
    | dir =>
      rw [h0] at h
      injection h with h
      subst h
      exact h0
    | file c => rw [h0] at h; cases h

theorem mkdirOne_pres {fs fs' : FS} {q : FPath} (h : mkdirOne fs q = Except.ok fs')
    {p : FPath} {n : Node} (hp : fsLookup fs p = some n) : fsLookup fs' p = some n := by
  unfold mkdirOne at h
  cases h0 : fsLookup fs q with
  | none =>
    rw [h0] at h
    injection h with h
    subst h
    rw [fsLookup_set]
    by_cases hqp : q = p
    · subst hqp; rw [h0] at hp; cases hp
    · simp [hqp, hp]
  | some m =>
    cases m with
    | dir =>
      rw [h0] at h
      injection h with h
      subst h
      exact hp
    | file c => rw [h0] at h; cases h

theorem mkdirOne_other {fs fs' : FS} {q : FPath} (h : mkdirOne fs q = Except.ok fs')
    {p : FPath} (hne : p ≠ q) : fsLookup fs' p = fsLookup fs p := by
  unfold mkdirOne at h
  cases h0 : fsLookup fs q with
  | none =>
    rw [h0] at h
    injection h with h
    subst h
    rw [fsLookup_set]
    have : ¬ q = p := fun hc => hne hc.symm
    simp [this]
  | some m =>
    cases m with
    | dir =>
      rw [h0] at h
      injection h with h
      subst h
      rfl
    | file c => rw [h0] at h; cases h

theorem mkdirSeq_pres : ∀ (l : List FPath) (fs fs' : FS), mkdirSeq fs l = Except.ok fs' →
    ∀ p n, fsLookup fs p = some n → fsLookup fs' p = some n := by
  intro l
  induction l with
  | nil =>
    intro fs fs' h p n hp
    simp only [mkdirSeq] at h
    injection h with h
    subst h
    exact hp
  | cons q rest ih =>
    intro fs fs' h p n hp
    simp only [mkdirSeq] at h
    cases h0 : mkdirOne fs q with
    | error e => rw [h0] at h; cases h
    | ok fs1 =>
      rw [h0] at h
      exact ih fs1 fs' h p n (mkdirOne_pres h0 hp)

theorem mkdirSeq_other : ∀ (l : List FPath) (fs fs' : FS), mkdirSeq fs l = Except.ok fs' →
    ∀ p, p ∉ l → fsLookup fs' p = fsLookup fs p := by
  intro l
  induction l with
  | nil =>
    intro fs fs' h p _
    simp only [mkdirSeq] at h
    injection h with h
    subst h
    rfl
  | cons q rest ih =>
    intro fs fs' h p hp
    simp only [mkdirSeq] at h
    cases h0 : mkdirOne fs q with
    | error e => rw [h0] at h; cases h
    | ok fs1 =>
      rw [h0] at h
      have h1 : p ≠ q := fun hc => hp (hc ▸ List.mem_cons_self q rest)
      have h2 : p ∉ rest := fun hc => hp (List.mem_cons_of_mem q hc)
      rw [ih fs1 fs' h p h2, mkdirOne_other h0 h1]

theorem mkdirSeq_mem : ∀ (l : List FPath) (fs fs' : FS), mkdirSeq fs l = Except.ok fs' →
    ∀ q, q ∈ l → fsLookup fs' q = some Node.dir := by
  intro l
  induction l with
  | nil => intro fs fs' _ q hq; simp at hq
  | cons x rest ih =>
    intro fs fs' h q hq
    simp only [mkdirSeq] at h
    cases h0 : mkdirOne fs x with
    | error e => rw [h0] at h; cases h
    | ok fs1 =>
      rw [h0] at h
      rcases List.mem_cons.mp hq with hqx | hqr
      · subst hqx
        exact mkdirSeq_pres rest fs1 fs' h q Node.dir (mkdirOne_ok_self h0)
      · exact ih fs1 fs' h q hqr

theorem self_mem_pathPrefixes {p : FPath} (h : p ≠ []) : p ∈ pathPrefixes p := by
  have hl : 0 < p.length := List.length_pos.mpr h
  unfold pathPrefixes
  refine List.mem_map.mpr ⟨p.length - 1, List.mem_range.mpr (by omega), ?_⟩
  rw [Nat.sub_add_cancel hl]
  exact List.take_length p

theorem splitOnChar_ne_nil (sep : Char) (cs : List Char) : splitOnChar sep cs ≠ [] := by
  cases cs with
  | nil => simp [splitOnChar]
  | cons c rest =>
    simp only [splitOnChar]
    by_cases hc : c = sep <;> simp [hc]

theorem pathOf_ne_nil (s : String) : pathOf s ≠ [] := by
  unfold pathOf
  intro hc
  exact splitOnChar_ne_nil (Char.ofNat 47) s.data (List.map_eq_nil_iff.mp hc)

theorem writeText_ok_self {fs fs' : FS} {p : FPath} {s : String}
    (h : writeText fs p s = Except.ok fs') : fsLookup fs' p = some (Node.file s) := by
  unfold writeText at h
  cases h0 : fsLookup fs p with
  | none =>
    rw [h0] at h
    by_cases hpar : parentOk fs p = true
    · rw [if_pos hpar] at h
      injection h with h
      subst h
      simp [fsLookup_set]
    · rw [if_neg hpar] at h; cases h
  | some m =>
    cases m with
    | dir => rw [h0] at h; cases h
    | file c =>
      rw [h0] at h
      by_cases hpar : parentOk fs p = true
      · rw [if_pos hpar] at h
        injection h with h
        subst h
        simp [fsLookup_set]
      · rw [if_neg hpar] at h; cases h

theorem writeText_other {fs fs' : FS} {p : FPath} {s : String}
    (h : writeText fs p s = Except.ok fs') {q : FPath} (hne : q ≠ p) :
    fsLookup fs' q = fsLookup fs q := by
  unfold writeText at h
  have hstep : ∀ (hok : (Except.ok (fsSet fs p (Node.file s)) : Except PyErr FS) = Except.ok fs'),
      fsLookup fs' q = fsLookup fs q := by
    intro hok
    injection hok with hok
    subst hok
    rw [fsLookup_set]
    have : ¬ p = q := fun hc => hne hc.symm
    simp [this]
  cases h0 : fsLookup fs p with
  | none =>
    rw [h0] at h
    by_cases hpar : parentOk fs p = true
    · rw [if_pos hpar] at h; exact hstep h
    · rw [if_neg hpar] at h; cases h
  | some m =>
    cases m with
    | dir => rw [h0] at h; cases h
    | file c =>
      rw [h0] at h
      by_cases hpar : parentOk fs p = true
      · rw [if_pos hpar] at h; exact hstep h
      · rw [if_neg hpar] at h; cases h

/- ------------------------------------------------------------------ -/
/- Lemmas about the stage building blocks.                            -/
/- ------------------------------------------------------------------ -/

theorem Res.bind_ok {r : Res} {f : St → Res} {s' : St} (h : Res.bind r f = Res.ok s') :
    ∃ s1, r = Res.ok s1 ∧ f s1 = Res.ok s' := by
  cases r with
  | ok st => exact ⟨st, rfl, h⟩
  | err e st => simp [Res.bind] at h

theorem mkdirStep_inv {st st' : St} {d : String} (h : mkdirStep st d = Res.ok st') :
    ∃ fs1, mkdirParents st.fs (pathOf d) = Except.ok fs1 ∧ st'.fs = fs1 := by
  unfold mkdirStep at h
  cases h0 : mkdirParents st.fs (pathOf d) with
  | error e => rw [h0] at h; cases h
  | ok fs1 =>
    rw [h0] at h
    injection h with h
    subst h
    exact ⟨fs1, rfl, rfl⟩

theorem mkdirStep_pres {st st' : St} {d : String} (h : mkdirStep st d = Res.ok st')
    {p : FPath} {n : Node} (hp : fsLookup st.fs p = some n) : fsLookup st'.fs p = some n := by
  obtain ⟨fs1, h1, h2⟩ := mkdirStep_inv h
  rw [h2]
  exact mkdirSeq_pres _ _ _ h1 p n hp

theorem mkdirStep_other {st st' : St} {d : String} (h : mkdirStep st d = Res.ok st')
    {p : FPath} (hp : p ∉ pathPrefixes (pathOf d)) : fsLookup st'.fs p = fsLookup st.fs p := by
  obtain ⟨fs1, h1, h2⟩ := mkdirStep_inv h
  rw [h2]
  exact mkdirSeq_other _ _ _ h1 p hp

theorem mkdirStep_self {st st' : St} {d : String} (h : mkdirStep st d = Res.ok st') :
    fsLookup st'.fs (pathOf d) = some Node.dir := by
  obtain ⟨fs1, h1, h2⟩ := mkdirStep_inv h
  rw [h2]
  exact mkdirSeq_mem _ _ _ h1 (pathOf d) (self_mem_pathPrefixes (pathOf_ne_nil d))

theorem touchStep_pres {st st' : St} {f : String} (h : touchStep st f = Res.ok st')
    {p : FPath} {n : Node} (hp : fsLookup st.fs p = some n) : fsLookup st'.fs p = some n := by
  unfold touchStep at h
  cases h0 : fsLookup st.fs (pathOf f) with
  | some m =>
    rw [h0] at h
    injection h with h
    subst h
    exact hp
  | none =>
    rw [h0] at h
    by_cases hpar : parentOk st.fs (pathOf f) = true
    · rw [if_pos hpar] at h
      injection h with h
      subst h
      show fsLookup (fsSet st.fs (pathOf f) (Node.file (""))) p = some n
      rw [fsLookup_set]
      by_cases hfp : pathOf f = p
      · subst hfp; rw [h0] at hp; cases hp
      · simp [hfp, hp]
    · rw [if_neg hpar] at h; cases h

theorem touchStep_other {st st' : St} {f : String} (h : touchStep st f = Res.ok st')
    {p : FPath} (hne : pathOf f ≠ p) : fsLookup st'.fs p = fsLookup st.fs p := by
  unfold touchStep at h
  cases h0 : fsLookup st.fs (pathOf f) with
  | some m =>
    rw [h0] at h
    injection h with h
    subst h
    rfl
  | none =>
    rw [h0] at h
    by_cases hpar : parentOk st.fs (pathOf f) = true
    · rw [if_pos hpar] at h
      injection h with h
      subst h
      show fsLookup (fsSet st.fs (pathOf f) (Node.file (""))) p = fsLookup st.fs p
      rw [fsLookup_set]
      simp [hne]
    · rw [if_neg hpar] at h; cases h

theorem writeStep_inv {p : FPath} {content msg : String} {st st' : St}
    (h : writeStep p content msg st = Res.ok st') :
    ∃ fs1, writeText st.fs p content = Except.ok fs1 ∧ st'.fs = fs1 := by
  unfold writeStep at h
  cases h0 : writeText st.fs p content with
  | error e => rw [h0] at h; cases h
  | ok fs1 =>
    rw [h0] at h
    injection h with h
    subst h
    exact ⟨fs1, rfl, rfl⟩

theorem writeStep_self {p : FPath} {content msg : String} {st st' : St}
    (h : writeStep p content msg st = Res.ok st') :
    fsLookup st'.fs p = some (Node.file content) := by
  obtain ⟨fs1, h1, h2⟩ := writeStep_inv h
  rw [h2]
  exact writeText_ok_self h1

theorem writeStep_other {p : FPath} {content msg : String} {st st' : St}
    (h : writeStep p content msg st = Res.ok st') {q : FPath} (hne : q ≠ p) :
    fsLookup st'.fs q = fsLookup st.fs q := by
  obtain ⟨fs1, h1, h2⟩ := writeStep_inv h
  rw [h2]
  exact writeText_other h1 hne

theorem foldStage_pres {α : Type} {step : St → α → Res}
    (hstep : ∀ s x s', step s x = Res.ok s' →
      ∀ p n, fsLookup s.fs p = some n → fsLookup s'.fs p = some n) :
    ∀ (l : List α) (s s' : St), foldStage step s l = Res.ok s' →
    ∀ p n, fsLookup s.fs p = some n → fsLookup s'.fs p = some n := by
  intro l
  induction l with
  | nil =>
    intro s s' h p n hp
    simp only [foldStage] at h
    injection h with h
    subst h
    exact hp
  | cons x rest ih =>
    intro s s' h p n hp
    simp only [foldStage] at h
    cases h0 : step s x with
    | ok s1 =>
      rw [h0] at h
      exact ih s1 s' h p n (hstep s x s1 h0 p n hp)
    | err e s1 => rw [h0] at h; cases h

theorem foldStage_frame {α : Type} {step : St → α → Res} {p : FPath} :
    ∀ (l : List α),
    (∀ s x s', x ∈ l → step s x = Res.ok s' → fsLookup s'.fs p = fsLookup s.fs p) →
    ∀ (s s' : St), foldStage step s l = Res.ok s' → fsLookup s'.fs p = fsLookup s.fs p := by
  intro l
  induction l with
  | nil =>
    intro _ s s' h
    simp only [foldStage] at h
    injection h with h
    subst h
    rfl
  | cons x rest ih =>
    intro hstep s s' h
    simp only [foldStage] at h
    cases h0 : step s x with
    | ok s1 =>
      rw [h0] at h
      have h1 := ih (fun s y s' hy hs => hstep s y s' (List.mem_cons_of_mem x hy) hs) s1 s' h
      rw [h1, hstep s x s1 (List.mem_cons_self x rest) h0]
    | err e s1 => rw [h0] at h; cases h

theorem foldStage_mkdir_mem : ∀ (l : List String) (s s' : St),
    foldStage mkdirStep s l = Res.ok s' →
    ∀ d, d ∈ l → fsLookup s'.fs (pathOf d) = some Node.dir := by
  intro l
  induction l with
  | nil => intro s s' _ d hd; simp at hd
  | cons x rest ih =>
    intro s s' h d hd
    simp only [foldStage] at h
    cases h0 : mkdirStep s x with
    | err e s1 => rw [h0] at h; cases h
    | ok s1 =>
      rw [h0] at h
      rcases List.mem_cons.mp hd with hdx | hdr
      · subst hdx
        exact foldStage_pres (fun a b c hab p n hp => mkdirStep_pres hab hp) rest s1 s' h _ _
          (mkdirStep_self h0)
      · exact ih s1 s' h d hdr

theorem foldStage_touch_none : ∀ (l : List String) (s s' : St),
    foldStage touchStep s l = Res.ok s' →
    ∀ p, p ∈ l.map pathOf → fsLookup s.fs p = none →
    fsLookup s'.fs p = some (Node.file ("")) := by
  intro l
  induction l with
  | nil => intro s s' _ p hp _; simp at hp
  | cons x rest ih =>
    intro s s' h p hp h0
    simp only [foldStage] at h
    cases hstep : touchStep s x with
    | err e s1 => rw [hstep] at h; cases h
    | ok s1 =>
      rw [hstep] at h
      by_cases hpx : pathOf x = p
      · have h1 : fsLookup s1.fs p = some (Node.file ("")) := by
          unfold touchStep at hstep
          rw [hpx, h0] at hstep
          by_cases hpar : parentOk s.fs p = true
          · rw [if_pos hpar] at hstep
            injection hstep with hstep
            subst hstep
            show fsLookup (fsSet s.fs p (Node.file (""))) p = some (Node.file (""))
            simp [fsLookup_set]
          · rw [if_neg hpar] at hstep; cases hstep
        exact foldStage_pres (fun a b c hab p n hp => touchStep_pres hab hp) rest s1 s' h p _ h1
      · have h1 : fsLookup s1.fs p = none := by
          rw [touchStep_other hstep hpx]
          exact h0
        have hmem : p ∈ rest.map pathOf := by
          rcases List.mem_cons.mp hp with hcon | hr
          · exact absurd hcon.symm hpx
          · exact hr
        exact ih s1 s' h p hmem h1

/- ------------------------------------------------------------------ -/
/- Lemmas about the scaffolding stage.                                -/
/- ------------------------------------------------------------------ -/

theorem scaffold_inv {st st' : St} (h : create_project_structure st = Res.ok st') :
    ∃ s1 s2 s3,
      foldStage mkdirStep (pr st ("\n[2/6] Creating project structure...")) directories
        = Res.ok s1 ∧
      foldStage touchStep s1 files = Res.ok s2 ∧
      writeStep (pathOf (".gitignore")) gitignore_content ("  📄 Created: .gitignore") s2
        = Res.ok s3 ∧
      st' = pr s3 ("✅ Project structure created successfully!") := by
  unfold create_project_structure at h
  obtain ⟨s1, h1, h⟩ := Res.bind_ok h
  obtain ⟨s2, h2, h⟩ := Res.bind_ok h
  obtain ⟨s3, h3, h⟩ := Res.bind_ok h
  injection h with h
  exact ⟨s1, s2, s3, h1, h2, h3, h.symm⟩

theorem scaffold_pres {st st' : St} (h : create_project_structure st = Res.ok st')
    {p : FPath} (hne : p ≠ pathOf (".gitignore")) {n : Node}
    (hp : fsLookup st.fs p = some n) : fsLookup st'.fs p = some n := by
  obtain ⟨s1, s2, s3, h1, h2, h3, h4⟩ := scaffold_inv h
  subst h4
  show fsLookup s3.fs p = some n
  rw [writeStep_other h3 hne]
  exact foldStage_pres (fun a b c hab p n hp => touchStep_pres hab hp) files s1 s2 h2 p n
    (foldStage_pres (fun a b c hab p n hp => mkdirStep_pres hab hp) directories _ s1 h1 p n hp)

theorem scaffold_dir {st st' : St} (h : create_project_structure st = Res.ok st')
    {d : String} (hd : d ∈ directories) : fsLookup st'.fs (pathOf d) = some Node.dir := by
  obtain ⟨s1, s2, s3, h1, h2, h3, h4⟩ := scaffold_inv h
  subst h4
  show fsLookup s3.fs (pathOf d) = some Node.dir
  have hall : ∀ x ∈ directories, pathOf x ≠ pathOf (".gitignore") := by decide
  rw [writeStep_other h3 (hall d hd)]
  exact foldStage_pres (fun a b c hab p n hp => touchStep_pres hab hp) files s1 s2 h2 _ _
    (foldStage_mkdir_mem directories _ s1 h1 d hd)

theorem scaffold_vacant {st st' : St} (h : create_project_structure st = Res.ok st')
    {f : String} (hf : f ∈ files) (h0 : fsLookup st.fs (pathOf f) = none) :
    fsLookup st'.fs (pathOf f) = some (Node.file ("")) := by
  obtain ⟨s1, s2, s3, h1, h2, h3, h4⟩ := scaffold_inv h
  subst h4
  show fsLookup s3.fs (pathOf f) = some (Node.file (""))
  have hdisj : ∀ x ∈ files, ∀ y ∈ directories, pathOf x ∉ pathPrefixes (pathOf y) := by decide
  have hs1 : fsLookup s1.fs (pathOf f) = none := by
    rw [foldStage_frame directories
      (fun s y s' hy hs => mkdirStep_other hs (hdisj f hf y hy)) _ s1 h1]
    exact h0
  have hgne : ∀ x ∈ files, pathOf x ≠ pathOf (".gitignore") := by decide
  rw [writeStep_other h3 (hgne f hf)]
  exact foldStage_touch_none files s1 s2 h2 (pathOf f) (List.mem_map.mpr ⟨f, hf, rfl⟩) hs1

/- ------------------------------------------------------------------ -/
/- Claims C6 and C7.                                                  -/
/- ------------------------------------------------------------------ -/

/-- C6: when the scaffolding stage returns normally (and no directory happens
to sit at a File-Plan path), every one of the 17 Directory-Plan entries exists
as a directory in the result, every one of the 16 File-Plan entries exists as
a file — created empty exactly when the path was vacant — and every
pre-existing binding other than the ignore-rules file .gitignore (which the
spec itself says is overwritten on every run) is left exactly as it was; in
particular every pre-existing Directory-Plan directory keeps its prior
contents untouched. -/
theorem c6_scaffold_plan (st st' : St)
    (h : create_project_structure st = Res.ok st')
    (hfiles : ∀ f ∈ files, fsLookup st.fs (pathOf f) ≠ some Node.dir) :
    (∀ d ∈ directories, fsLookup st'.fs (pathOf d) = some Node.dir) ∧
    (∀ f ∈ files, ∃ c, fsLookup st'.fs (pathOf f) = some (Node.file c)) ∧
    (∀ f ∈ files, fsLookup st.fs (pathOf f) = none →
      fsLookup st'.fs (pathOf f) = some (Node.file (""))) ∧
    (∀ p n, p ≠ pathOf (".gitignore") → fsLookup st.fs p = some n →
      fsLookup st'.fs p = some n) := by
  refine ⟨fun d hd => scaffold_dir h hd, ?_, fun f hf h0 => scaffold_vacant h hf h0,
    fun p n hne hp => scaffold_pres h hne hp⟩
  intro f hf
  cases h0 : fsLookup st.fs (pathOf f) with
  | none => exact ⟨"", scaffold_vacant h hf h0⟩
  | some m =>
    cases m with
    | dir => exact absurd h0 (hfiles f hf)
    | file c =>
      have hgne : ∀ x ∈ files, pathOf x ≠ pathOf (".gitignore") := by decide
      exact ⟨c, scaffold_pres h (hgne f hf) h0⟩

/-- C6 witness: scaffolding an empty tree creates the directory src/core and
the empty placeholder file CHANGELOG.md. -/
theorem c6_scaffold_plan_witness :
    fsLookup (Res.state (create_project_structure { fs := [], out := [] })).fs
      (pathOf ("src/core")) = some Node.dir ∧
    fsLookup (Res.state (create_project_structure { fs := [], out := [] })).fs
      (pathOf ("CHANGELOG.md")) = some (Node.file ("")) := by
  have h : create_project_structure { fs := [], out := [] }
      = Res.ok (Res.state (create_project_structure { fs := [], out := [] })) := by rfl
  have hc := c6_scaffold_plan { fs := [], out := [] } _ h (by decide)
  exact ⟨hc.1 _ (by decide), hc.2.2.1 _ (by decide) (by decide)⟩

/-- C7: File-Plan placeholders are create-if-missing only: through one
scaffolding run an existing file at a File-Plan path keeps its exact contents,
a vacant File-Plan path gains an empty file, and a second scaffolding run
leaves every File-Plan path exactly as the first run left it. -/
theorem c7_placeholder_idempotent (st st' st'' : St) (f : String) (hf : f ∈ files)
    (h : create_project_structure st = Res.ok st')
    (h2 : create_project_structure st' = Res.ok st'') :
    (∀ c, fsLookup st.fs (pathOf f) = some (Node.file c) →
      fsLookup st'.fs (pathOf f) = some (Node.file c)) ∧
    (fsLookup st.fs (pathOf f) = none →
      fsLookup st'.fs (pathOf f) = some (Node.file (""))) ∧
    fsLookup st''.fs (pathOf f) = fsLookup st'.fs (pathOf f) := by
  have hgne : ∀ x ∈ files, pathOf x ≠ pathOf (".gitignore") := by decide
  refine ⟨fun c hc => scaffold_pres h (hgne f hf) hc, fun h0 => scaffold_vacant h hf h0, ?_⟩
  have hsome : ∃ m, fsLookup st'.fs (pathOf f) = some m := by
    cases h0 : fsLookup st.fs (pathOf f) with
    | none => exact ⟨Node.file (""), scaffold_vacant h hf h0⟩
    | some m => exact ⟨m, scaffold_pres h (hgne f hf) h0⟩
  obtain ⟨m, hm⟩ := hsome
  rw [hm]
  exact scaffold_pres h2 (hgne f hf) hm

/-- C7 witness: scaffolding an empty tree twice leaves CHANGELOG.md exactly as
the first run created it (the empty placeholder). -/
theorem c7_placeholder_idempotent_witness :
    fsLookup (Res.state (create_project_structure
        (Res.state (create_project_structure { fs := [], out := [] })))).fs
      (pathOf ("CHANGELOG.md"))
    = fsLookup (Res.state (create_project_structure { fs := [], out := [] })).fs
      (pathOf ("CHANGELOG.md")) ∧
    fsLookup (Res.state (create_project_structure { fs := [], out := [] })).fs
      (pathOf ("CHANGELOG.md")) = some (Node.file ("")) := by
  have h1 : create_project_structure { fs := [], out := [] }
      = Res.ok (Res.state (create_project_structure { fs := [], out := [] })) := by rfl
  have h2 : create_project_structure (Res.state (create_project_structure { fs := [], out := [] }))
      = Res.ok (Res.state (create_project_structure
          (Res.state (create_project_structure { fs := [], out := [] })))) := by rfl
  have hc := c7_placeholder_idempotent _ _ _ ("CHANGELOG.md") (by decide) h1 h2
  exact ⟨hc.2.2, hc.2.1 (by decide)⟩

/- ------------------------------------------------------------------ -/
/- Claim C1.                                                          -/
/- ------------------------------------------------------------------ -/

/-- C1: on a host version below (3, 7) the whole run exits with status 1 with
the filesystem exactly as it started (no file or directory created — only the
banner and the two version-check lines were printed); on a version at or above
(3, 7) the version-check stage returns normally, printing the detected-version
confirmation instead of exiting. -/
theorem c1_version_gate (v : Nat × Nat) (outcome : InstallOutcome) (fs : FS) :
    (pyVerLt37 v = true →
      (runSetup v outcome fs).exitCode = 1 ∧ (runSetup v outcome fs).st.fs = fs) ∧
    (pyVerLt37 v = false → ∀ st : St,
      check_python_version v st =
        Res.ok (pr (pr st ("[1/6] Checking Python version..."))
          ("✅ Python " ++ toString v.1 ++ "." ++ toString v.2 ++ " detected"))) := by
  constructor
  · intro hlt
    refine ⟨?_, ?_⟩ <;>
      simp [runSetup, setup_run, check_python_version, hlt, Res.bind, topLevel,
        print_banner, pr]
  · intro hge st
    simp [check_python_version, hge]

/-- C1 witness: version (3, 6) exits 1 leaving an empty tree empty; version
(3, 11) passes the check and prints the confirmation. -/
theorem c1_version_gate_witness :
    ((runSetup (3, 6) InstallOutcome.success []).exitCode = 1 ∧
      (runSetup (3, 6) InstallOutcome.success []).st.fs = []) ∧
    check_python_version (3, 11) { fs := [], out := [] } =
      Res.ok (pr (pr { fs := [], out := [] } ("[1/6] Checking Python version..."))
        ("✅ Python " ++ toString (3 : Nat) ++ "." ++ toString (11 : Nat) ++ " detected")) := by
  constructor
  · exact (c1_version_gate (3, 6) InstallOutcome.success []).1 (by decide)
  · exact (c1_version_gate (3, 11) InstallOutcome.success []).2 (by decide)
      { fs := [], out := [] }

/- ------------------------------------------------------------------ -/
/- Claim C2 (code bug).                                               -/
/- ------------------------------------------------------------------ -/

/-- C2: the claim fails on the code.  With the host version fine and pip
exiting non-zero, the caught CalledProcessError is indeed reported with the
manual-remediation hint and the run continues — but the main-files stage then
raises NameError while evaluating the cleanup-script f-string: run.py has been
written, cleanup.py and README.md are still the empty scaffolding placeholders,
the documentation stage header is never printed, and the process exits 1.  So
the launcher stage runs, but the cleanup-script and README stages do not
execute afterwards. -/
theorem c2_install_failure_not_tolerated :
    ((fun r => (r.exitCode,
        fsLookup r.st.fs (pathOf ("run.py")),
        fsLookup r.st.fs (pathOf ("cleanup.py")),
        fsLookup r.st.fs (pathOf ("README.md")),
        decide (("Please install manually: pip install -r requirements.txt") ∈ r.st.out),
        decide (("\n[6/6] Creating documentation...") ∈ r.st.out)))
      (runSetup (3, 11) (InstallOutcome.calledProcessError 1) []))
    = (1, some (Node.file run_py_text), some (Node.file ("")), some (Node.file ("")),
       true, false) := by rfl

/- ------------------------------------------------------------------ -/
/- Claim C4 (code bug).                                               -/
/- ------------------------------------------------------------------ -/

/-- C4: the claim fails on the code.  Over a tree pre-seeded with stale content
at every templated path, a run does overwrite .gitignore, config/settings.json,
config/api_config.json, .env.example and run.py with their generated payloads,
but cleanup.py and README.md keep their prior contents: create_main_files
raises NameError after writing run.py and before writing cleanup.py, so those
two templates are never written and the run exits 1. -/
theorem c4_overwrite_only_partial :
    ((fun r => (r.exitCode,
        fsLookup r.st.fs (pathOf (".gitignore")),
        fsLookup r.st.fs (pathOf ("config/settings.json")),
        fsLookup r.st.fs (pathOf ("config/api_config.json")),
        fsLookup r.st.fs (pathOf (".env.example")),
        fsLookup r.st.fs (pathOf ("run.py")),
        fsLookup r.st.fs (pathOf ("cleanup.py")),
        fsLookup r.st.fs (pathOf ("README.md"))))
      (runSetup (3, 11) InstallOutcome.success seededFS))
    = (1, some (Node.file gitignore_content),
       some (Node.file (Json.dump settingsJson 0)),
       some (Node.file (Json.dump apiConfigJson 0)),
       some (Node.file env_example),
       some (Node.file run_py_text),
       some (Node.file ("OLD")),
       some (Node.file ("OLD"))) := by rfl

/- ------------------------------------------------------------------ -/
/- Claim C5 (code bug).                                               -/
/- ------------------------------------------------------------------ -/

/-- C5: the claim fails on the code.  A run on a good host version with a
successful pip call prints the banner first and then the stage headers 1-5 in
order, each exactly once — but stage 5 neither completes nor tolerates its own
failure (the cleanup-script f-string raises NameError), so the documentation
stage (header 6) never begins and the run exits 1 instead of finishing the
seven operations. -/
theorem c5_stage_order_cut_short :
    ((fun r => (r.st.out.head?, r.st.out.filter isStageHeader, r.exitCode))
      (runSetup (3, 11) InstallOutcome.success []))
    = (some banner_text,
       ["[1/6] Checking Python version...",
        "\n[2/6] Creating project structure...",
        "\n[3/6] Creating configuration files...",
        "\n[4/6] Installing dependencies...",
        "\n[5/6] Creating main application files..."],
       1) := by rfl

/- ------------------------------------------------------------------ -/
/- Claim C3.                                                          -/
/- ------------------------------------------------------------------ -/

theorem config_inv {st st' : St} (h : create_config_files st = Res.ok st') :
    ∃ s1 s2 s3,
      writeStep (pathOf ("config/settings.json")) (Json.dump settingsJson 0)
        ("  📄 Created: config/settings.json")
        (pr st ("\n[3/6] Creating configuration files...")) = Res.ok s1 ∧
      writeStep (pathOf ("config/api_config.json")) (Json.dump apiConfigJson 0)
        ("  📄 Created: config/api_config.json") s1 = Res.ok s2 ∧
      writeStep (pathOf (".env.example")) env_example
        ("  📄 Created: .env.example") s2 = Res.ok s3 ∧
      st' = pr s3 ("✅ Configuration files created!") := by
  unfold create_config_files at h
  obtain ⟨s1, h1, h⟩ := Res.bind_ok h
  obtain ⟨s2, h2, h⟩ := Res.bind_ok h
  obtain ⟨s3, h3, h⟩ := Res.bind_ok h
  injection h with h
  exact ⟨s1, s2, s3, h1, h2, h3, h.symm⟩

/-- C3: whenever the configuration stage returns normally it has written
config/settings.json with exactly the serialized Settings Document; that
document is structurally identical to the spec's §6 Settings Document
(settingsSpecJson, transcribed from the spec's words, so parsing the written
JSON text recovers precisely the §6 structure), and its app.version field is
the orchestrator's configured version string "5.0.0". -/
theorem c3_settings_document (st st' : St) (h : create_config_files st = Res.ok st') :
    fsLookup st'.fs (pathOf ("config/settings.json"))
      = some (Node.file (Json.dump settingsJson 0)) ∧
    settingsJson = settingsSpecJson ∧
    Option.bind (Json.get settingsJson ("app")) (fun j => Json.get j ("version"))
      = some (Json.str version) ∧
    version = "5.0.0" := by
  obtain ⟨s1, s2, s3, h1, h2, h3, h4⟩ := config_inv h
  subst h4
  refine ⟨?_, rfl, rfl, rfl⟩
  show fsLookup s3.fs (pathOf ("config/settings.json"))
    = some (Node.file (Json.dump settingsJson 0))
  rw [writeStep_other h3 (by decide), writeStep_other h2 (by decide)]
  exact writeStep_self h1

/-- C3 witness: running the configuration stage over a tree holding just the
config directory writes the serialized Settings Document, and that document is
the spec's §6 structure. -/
theorem c3_settings_document_witness :
    fsLookup (Res.state (create_config_files
        { fs := [(["config"], Node.dir)], out := [] })).fs
      (pathOf ("config/settings.json"))
      = some (Node.file (Json.dump settingsJson 0)) ∧
    settingsJson = settingsSpecJson := by
  have h : create_config_files { fs := [(["config"], Node.dir)], out := [] }
      = Res.ok (Res.state (create_config_files
          { fs := [(["config"], Node.dir)], out := [] })) := by rfl
  exact ⟨(c3_settings_document _ _ h).1, (c3_settings_document _ _ h).2.1⟩

/- ------------------------------------------------------------------ -/
/- Claim C8.                                                          -/
/- ------------------------------------------------------------------ -/

/-- C8: whatever the pip outcome, the install stage writes requirements.txt
whose content is exactly the eight specifier lines, one per line, in the fixed
source order, with no duplicates or omissions. -/
theorem c8_requirements_manifest (st : St) (outcome : InstallOutcome)
    (h : fsLookup st.fs (pathOf ("requirements.txt")) ≠ some Node.dir) :
    fsLookup (Res.state (install_dependencies outcome st)).fs (pathOf ("requirements.txt"))
      = some (Node.file req_content) ∧
    req_content = "requests>=2.31.0\ncolorama>=0.4.6\ntqdm>=4.66.1\npandas>=2.0.3\nopenpyxl>=3.1.2\npython-dotenv>=1.0.0\nPyInquirer>=1.0.3\ntabulate>=0.9.0" ∧
    linesOf req_content = requirements ∧
    requirements.length = 8 ∧ requirements.Nodup := by
  refine ⟨?_, by decide, by decide, by decide, by decide⟩
  have hw : writeText st.fs (pathOf ("requirements.txt")) req_content
      = Except.ok (fsSet st.fs (pathOf ("requirements.txt")) (Node.file req_content)) := by
    unfold writeText
    cases h0 : fsLookup st.fs (pathOf ("requirements.txt")) with
    | none => simp [parentOk, pathOf, splitOnChar]
    | some m =>
      cases m with
      | dir => exact absurd h0 h
      | file c => simp [parentOk, pathOf, splitOnChar]
  cases outcome with
  | success =>
    simp [install_dependencies, writeQuiet, Res.bind, Res.state, pr, hw, fsLookup_set]
  | calledProcessError c =>
    simp [install_dependencies, writeQuiet, Res.bind, Res.state, pr, hw, fsLookup_set]
  | invocationFailure =>
    simp [install_dependencies, writeQuiet, Res.bind, Res.state, pr, hw, fsLookup_set]

/-- C8 witness: the install stage over an empty tree (pip succeeding) leaves
requirements.txt holding the manifest, whose lines are the eight specifiers. -/
theorem c8_requirements_manifest_witness :
    fsLookup (Res.state (install_dependencies InstallOutcome.success
        { fs := [], out := [] })).fs (pathOf ("requirements.txt"))
      = some (Node.file req_content) ∧
    linesOf req_content = requirements :=
  ⟨(c8_requirements_manifest { fs := [], out := [] } InstallOutcome.success (by decide)).1,
   (c8_requirements_manifest { fs := [], out := [] } InstallOutcome.success (by decide)).2.2.1⟩

/- ------------------------------------------------------------------ -/
/- Claim C10.                                                         -/
/- ------------------------------------------------------------------ -/

/-- C10: the generated launcher text contains the import line for the module
path src.app.main, yet no Directory-Plan entry is src/app and no File-Plan
entry lies under src/app, and scaffolding an empty tree leaves src/app, its
package marker, and a src/app/main module all vacant — the launcher's import
target does not exist in a freshly scaffolded tree. -/
theorem c10_launcher_import_target_missing :
    strContains run_py_text ("from src.app.main import main") = true ∧
    (["src", "app"] ∉ directories.map pathOf) ∧
    (files.map pathOf).all (fun p => !(List.isPrefixOf ["src", "app"] p)) = true ∧
    fsLookup (Res.state (create_project_structure { fs := [], out := [] })).fs
      ["src", "app"] = none ∧
    fsLookup (Res.state (create_project_structure { fs := [], out := [] })).fs
      ["src", "app", "__init__.py"] = none ∧
    fsLookup (Res.state (create_project_structure { fs := [], out := [] })).fs
      ["src", "app", "main.py"] = none := by
  refine ⟨by decide, by decide, by decide, by rfl, by rfl, by rfl⟩

/- ------------------------------------------------------------------ -/
/- Lemmas about the cleanup script model.                             -/
/- ------------------------------------------------------------------ -/

theorem keep_lookup_true {fs : FS} {P : FPath → Bool} {p : FPath} (hp : P p = true) :
    fsLookup (fsKeepKeys fs P) p = fsLookup fs p := by
  rw [fsLookup_keepKeys, if_pos hp]

theorem keep_lookup_false {fs : FS} {P : FPath → Bool} {p : FPath} (hp : P p = false) :
    fsLookup (fsKeepKeys fs P) p = none := by
  rw [fsLookup_keepKeys, if_neg]
  simp [hp]

theorem unlinkSeq_ok : ∀ (l : List (FPath × Node)) (fs : FS),
    (∀ e ∈ l, e.2 ≠ Node.dir) → ∃ fs', unlinkSeq fs l = Except.ok fs' := by
  intro l
  induction l with
  | nil => intro fs _; exact ⟨fs, rfl⟩
  | cons e rest ih =>
    obtain ⟨q, m⟩ := e
    intro fs hl
    cases m with
    | dir => exact absurd rfl (hl (q, Node.dir) (List.mem_cons_self _ _))
    | file c =>
      obtain ⟨fs', hfs'⟩ := ih (fsErase fs q) (fun e he => hl e (List.mem_cons_of_mem _ he))
      refine ⟨fs', ?_⟩
      simp only [unlinkSeq]
      exact hfs'

theorem unlinkSeq_lookup : ∀ (l : List (FPath × Node)) (fs fs' : FS),
    unlinkSeq fs l = Except.ok fs' → ∀ p,
    (p ∈ l.map (fun e => e.1) → fsLookup fs' p = none) ∧
    (p ∉ l.map (fun e => e.1) → fsLookup fs' p = fsLookup fs p) := by
  intro l
  induction l with
  | nil =>
    intro fs fs' h p
    simp only [unlinkSeq] at h
    injection h with h
    subst h
    constructor
    · intro hp; simp at hp
    · intro _; rfl
  | cons e rest ih =>
    obtain ⟨q, m⟩ := e
    intro fs fs' h p
    cases m with
    | dir => simp only [unlinkSeq] at h; cases h
    | file c =>
      simp only [unlinkSeq] at h
      have IH := ih (fsErase fs q) fs' h p
      constructor
      · intro hp
        simp only [List.map_cons] at hp
        rcases List.mem_cons.mp hp with hpq | hpr
        · subst hpq
          by_cases hqr : p ∈ rest.map (fun e => e.1)
          · exact IH.1 hqr
          · rw [IH.2 hqr, fsLookup_erase]
            simp
        · exact IH.1 hpr
      · intro hp
        simp only [List.map_cons] at hp
        have h1 : p ≠ q := fun hc => hp (by rw [hc]; exact List.mem_cons_self _ _)
        have h2 : p ∉ rest.map (fun e => e.1) := fun hc => hp (List.mem_cons_of_mem _ hc)
        rw [IH.2 h2, fsLookup_erase]
        simp [h1]

theorem rmtreeStep_dir (st : St) (d : String) (h : fsLookup st.fs [d] = some Node.dir) :
    ∃ st', rmtreeStep d st = Res.ok st' ∧
      st'.fs = fsKeepKeys st.fs (fun q => !(List.isPrefixOf [d] q)) := by
  refine ⟨pr { st with fs := fsKeepKeys st.fs (fun q => !(List.isPrefixOf [d] q)) }
    ("  ✅ Removed: " ++ d ++ "/"), ?_, rfl⟩
  unfold rmtreeStep
  rw [h]

theorem logsStep_ok {st : St} (hdir : fsLookup st.fs ["logs"] = some Node.dir)
    (hfiles : ∀ e ∈ st.fs, isLogChild e.1 = true → e.2 ≠ Node.dir) :
    ∃ st', logsStep st = Res.ok st' ∧
      (∀ p, p ∈ (fsKeepKeys st.fs isLogChild).map (fun e => e.1) →
        fsLookup st'.fs p = none) ∧
      (∀ p, p ∉ (fsKeepKeys st.fs isLogChild).map (fun e => e.1) →
        fsLookup st'.fs p = fsLookup st.fs p) := by
  obtain ⟨fs1, hu⟩ := unlinkSeq_ok (fsKeepKeys st.fs isLogChild) st.fs
    (fun e he => hfiles e (mem_of_mem_keepKeys he) ((List.mem_filter.mp he).2))
  refine ⟨pr { st with fs := fs1 } ("  ✅ Cleared: logs/"), ?_, ?_, ?_⟩
  · unfold logsStep
    rw [hdir, hu]
  · intro p hp
    exact (unlinkSeq_lookup _ _ _ hu p).1 hp
  · intro p hp
    exact (unlinkSeq_lookup _ _ _ hu p).2 hp

theorem unlinkFileStep_ok (st : St) (f : String) (h : fsLookup st.fs [f] ≠ some Node.dir) :
    ∃ st', unlinkFileStep f st = Res.ok st' ∧
      fsLookup st'.fs [f] = none ∧
      (∀ p, p ≠ [f] → fsLookup st'.fs p = fsLookup st.fs p) := by
  cases h0 : fsLookup st.fs [f] with
  | none =>
    refine ⟨st, ?_, h0, fun p _ => rfl⟩
    unfold unlinkFileStep
    rw [h0]
  | some m =>
    cases m with
    | dir => exact absurd h0 h
    | file c =>
      refine ⟨pr { st with fs := fsErase st.fs [f] } ("  ✅ Removed: " ++ f), ?_, ?_, ?_⟩
      · unfold unlinkFileStep
        rw [h0]
      · show fsLookup (fsErase st.fs [f]) [f] = none
        rw [fsLookup_erase]
        simp
      · intro p hp
        show fsLookup (fsErase st.fs [f]) p = fsLookup st.fs p
        rw [fsLookup_erase]
        simp [hp]

theorem isLogChild_shape {p : FPath} (h : isLogChild p = true) :
    ∃ b, p = ["logs", b] ∧ endsWithLog b = true := by
  cases p with
  | nil => simp [isLogChild] at h
  | cons a t =>
    cases t with
    | nil => simp [isLogChild] at h
    | cons b t2 =>
      cases t2 with
      | nil =>
        simp only [isLogChild, Bool.and_eq_true, decide_eq_true_eq] at h
        exact ⟨b, by rw [h.1], h.2⟩
      | cons x t3 => simp [isLogChild] at h

theorem isPrefixOf_singleton {a : String} {p : FPath} (h : List.isPrefixOf [a] p = true) :
    ∃ t, p = a :: t := by
  cases p with
  | nil => simp [List.isPrefixOf] at h
  | cons b t =>
    simp only [List.isPrefixOf, Bool.and_eq_true, beq_iff_eq] at h
    exact ⟨t, by rw [h.1]⟩

theorem isPrefixOf_singleton_cons_ne {a b : String} (hne : a ≠ b) (t : FPath) :
    List.isPrefixOf [a] (b :: t) = false := by
  simp [List.isPrefixOf, hne]

/- ------------------------------------------------------------------ -/
/- Claim C9.                                                          -/
/- ------------------------------------------------------------------ -/

/-- C9: on any tree (with consistent, duplicate-free paths) holding the cache
directory __pycache__, tmp, and a logs directory whose *.log-matching direct
children are all files, the generated cleanup script runs to completion and
(a) erases everything under __pycache__ and tmp, the directories included,
(b) keeps the logs directory itself, (c) deletes exactly the direct children
of logs matching *.log, (d) leaves every other binding — in particular the
non-log files inside logs — exactly as it was, and (e) ends with .DS_Store and
thumbs.db absent. -/
theorem c9_cleanup_semantics (fs : FS)
    (hcache : fsLookup fs ["__pycache__"] = some Node.dir)
    (htmp : fsLookup fs ["tmp"] = some Node.dir)
    (hlogs : fsLookup fs ["logs"] = some Node.dir)
    (hlogentries : ∀ e ∈ fs, isLogChild e.1 = true → e.2 ≠ Node.dir)
    (hds : fsLookup fs [".DS_Store"] ≠ some Node.dir)
    (hth : fsLookup fs ["thumbs.db"] ≠ some Node.dir) :
    ∃ st', cleanup_run { fs := fs, out := [] } = Res.ok st' ∧
      (∀ p, List.isPrefixOf ["__pycache__"] p = true → fsLookup st'.fs p = none) ∧
      (∀ p, List.isPrefixOf ["tmp"] p = true → fsLookup st'.fs p = none) ∧
      fsLookup st'.fs ["logs"] = some Node.dir ∧
      (∀ b c, fsLookup fs ["logs", b] = some (Node.file c) → endsWithLog b = true →
        fsLookup st'.fs ["logs", b] = none) ∧
      (∀ p, List.isPrefixOf ["__pycache__"] p = false → List.isPrefixOf ["tmp"] p = false →
        isLogChild p = false → p ≠ [".DS_Store"] → p ≠ ["thumbs.db"] →
        fsLookup st'.fs p = fsLookup fs p) ∧
      fsLookup st'.fs [".DS_Store"] = none ∧
      fsLookup st'.fs ["thumbs.db"] = none := by
  obtain ⟨st1, e1, hfs1x⟩ := rmtreeStep_dir
    (pr { fs := fs, out := [] } ("🧹 Cleaning project...")) ("__pycache__") hcache
  have hfs1 : st1.fs = fsKeepKeys fs (fun q => !(List.isPrefixOf ["__pycache__"] q)) := hfs1x
  have h2pre : fsLookup st1.fs ["tmp"] = some Node.dir := by
    rw [hfs1, keep_lookup_true (by decide)]
    exact htmp
  obtain ⟨st2, e2, hfs2x⟩ := rmtreeStep_dir st1 ("tmp") h2pre
  have hfs2 : st2.fs = fsKeepKeys st1.fs (fun q => !(List.isPrefixOf ["tmp"] q)) := hfs2x
  have lookup2 : ∀ p, List.isPrefixOf ["__pycache__"] p = false →
      List.isPrefixOf ["tmp"] p = false → fsLookup st2.fs p = fsLookup fs p := by
    intro p h1 h2
    rw [hfs2, keep_lookup_true (by simp [h2]), hfs1, keep_lookup_true (by simp [h1])]
  have hlogs2 : fsLookup st2.fs ["logs"] = some Node.dir := by
    rw [lookup2 ["logs"] (by decide) (by decide)]
    exact hlogs
  have hfiles2 : ∀ e ∈ st2.fs, isLogChild e.1 = true → e.2 ≠ Node.dir := by
    intro e he hlog
    rw [hfs2] at he
    have he1 := mem_of_mem_keepKeys he
    rw [hfs1] at he1
    exact hlogentries e (mem_of_mem_keepKeys he1) hlog
  obtain ⟨st3, e3, h3rm, h3keep⟩ := logsStep_ok hlogs2 hfiles2
  have hnotlog : ∀ p, isLogChild p = false →
      p ∉ (fsKeepKeys st2.fs isLogChild).map (fun e => e.1) := by
    intro p hp hmem
    rw [mem_keys_keepKeys] at hmem
    exact absurd hmem.1 (by simp [hp])
  have hds3 : fsLookup st3.fs [".DS_Store"] ≠ some Node.dir := by
    rw [h3keep _ (hnotlog _ (by decide)), lookup2 _ (by decide) (by decide)]
    exact hds
  obtain ⟨st4, e4, h4self, h4other⟩ := unlinkFileStep_ok st3 (".DS_Store") hds3
  have hth4 : fsLookup st4.fs ["thumbs.db"] ≠ some Node.dir := by
    rw [h4other _ (by decide), h3keep _ (hnotlog _ (by decide)),
      lookup2 _ (by decide) (by decide)]
    exact hth
  obtain ⟨st5, e5, h5self, h5other⟩ := unlinkFileStep_ok st4 ("thumbs.db") hth4
  refine ⟨pr st5 ("✅ Cleanup completed!"), ?_, ?_, ?_, ?_, ?_, ?_, ?_, ?_⟩
  · simp only [cleanup_run, e1, e2, e3, e4, e5, Res.bind]
  · -- everything under __pycache__ is gone
    intro p hA
    obtain ⟨t, hpt⟩ := isPrefixOf_singleton hA
    have htmpf : List.isPrefixOf ["tmp"] p = false := by
      rw [hpt]; exact isPrefixOf_singleton_cons_ne (by decide) t
    have hlogf : isLogChild p = false := by
      cases hIL : isLogChild p with
      | false => rfl
      | true =>
        obtain ⟨b, hb, _⟩ := isLogChild_shape hIL
        rw [hpt] at hb
        exact absurd (List.cons.inj hb).1 (by decide)
    have hne1 : p ≠ [".DS_Store"] := by
      rw [hpt]; intro hc; exact absurd (List.cons.inj hc).1 (by decide)
    have hne2 : p ≠ ["thumbs.db"] := by
      rw [hpt]; intro hc; exact absurd (List.cons.inj hc).1 (by decide)
    show fsLookup st5.fs p = none
    rw [h5other p hne2, h4other p hne1, h3keep p (hnotlog p hlogf), hfs2,
      keep_lookup_true (by simp [htmpf]), hfs1, keep_lookup_false (by simp [hA])]
  · -- everything under tmp is gone
    intro p hB
    obtain ⟨t, hpt⟩ := isPrefixOf_singleton hB
    have hlogf : isLogChild p = false := by
      cases hIL : isLogChild p with
      | false => rfl
      | true =>
        obtain ⟨b, hb, _⟩ := isLogChild_shape hIL
        rw [hpt] at hb
        exact absurd (List.cons.inj hb).1 (by decide)
    have hne1 : p ≠ [".DS_Store"] := by
      rw [hpt]; intro hc; exact absurd (List.cons.inj hc).1 (by decide)
    have hne2 : p ≠ ["thumbs.db"] := by
      rw [hpt]; intro hc; exact absurd (List.cons.inj hc).1 (by decide)
    show fsLookup st5.fs p = none
    rw [h5other p hne2, h4other p hne1, h3keep p (hnotlog p hlogf), hfs2,
      keep_lookup_false (by simp [hB])]
  · -- the logs directory itself survives
    show fsLookup st5.fs ["logs"] = some Node.dir
    rw [h5other _ (by decide), h4other _ (by decide), h3keep _ (hnotlog _ (by decide)),
      lookup2 _ (by decide) (by decide)]
    exact hlogs
  · -- *.log direct children of logs are deleted
    intro b c hbc hend
    have hpyf : List.isPrefixOf ["__pycache__"] ["logs", b] = false :=
      isPrefixOf_singleton_cons_ne (by decide) [b]
    have htmpf : List.isPrefixOf ["tmp"] ["logs", b] = false :=
      isPrefixOf_singleton_cons_ne (by decide) [b]
    have hlook2 : fsLookup st2.fs ["logs", b] = some (Node.file c) := by
      rw [lookup2 _ hpyf htmpf]
      exact hbc
    have hIL : isLogChild ["logs", b] = true := by simp [isLogChild, hend]
    have hmem : (["logs", b] : FPath) ∈ (fsKeepKeys st2.fs isLogChild).map (fun e => e.1) :=
      mem_keys_keepKeys.mpr ⟨hIL, mem_keys_of_lookup hlook2⟩
    have hne1 : (["logs", b] : FPath) ≠ [".DS_Store"] := by
      intro hc; have := congrArg List.length hc; simp at this
    have hne2 : (["logs", b] : FPath) ≠ ["thumbs.db"] := by
      intro hc; have := congrArg List.length hc; simp at this
    show fsLookup st5.fs ["logs", b] = none
    rw [h5other _ hne2, h4other _ hne1]
    exact h3rm _ hmem
  · -- frame: every other binding is untouched
    intro p h1 h2 h3 h4 h5
    show fsLookup st5.fs p = fsLookup fs p
    rw [h5other p h5, h4other p h4, h3keep p (hnotlog p h3), lookup2 p h1 h2]
  · -- .DS_Store ends up absent
    show fsLookup st5.fs [".DS_Store"] = none
    rw [h5other _ (by decide)]
    exact h4self
  · -- thumbs.db ends up absent
    exact h5self

/-- C9 witness: on the demo tree, the cleanup script succeeds, removes tmp and
the whole cache subtree, deletes logs/old.log, keeps logs and logs/keep.txt,
and removes .DS_Store. -/
theorem c9_cleanup_semantics_witness :
    ∃ st', cleanup_run { fs := cleanupDemoFS, out := [] } = Res.ok st' ∧
      fsLookup st'.fs ["tmp"] = none ∧
      fsLookup st'.fs ["tmp", "scratch.txt"] = none ∧
      fsLookup st'.fs ["__pycache__", "m.pyc"] = none ∧
      fsLookup st'.fs ["logs"] = some Node.dir ∧
      fsLookup st'.fs ["logs", "old.log"] = none ∧
      fsLookup st'.fs ["logs", "keep.txt"] = some (Node.file ("K")) ∧
      fsLookup st'.fs [".DS_Store"] = none := by
  obtain ⟨st', hrun, hA, hB, hC, hD, hE, hF, hG⟩ :=
    c9_cleanup_semantics cleanupDemoFS (by decide) (by decide) (by decide)
      (by decide) (by decide) (by decide)
  refine ⟨st', hrun, hB _ (by decide), hB _ (by decide), hA _ (by decide), hC,
    hD ("old.log") ("L") (by decide) (by decide), ?_, hF⟩
  rw [hE _ (by decide) (by decide) (by decide) (by decide) (by decide)]
  decide
